import Mathlib

/-!
# Scipio cycle orchestrator — verification development

A shallow embedding of the job engine, import pipeline and export pipeline
of the Scipio repository, together with theorems settling the specification
claims about them.

Conventions of the embedding:
* Rust `Uuid` values are modelled as `Nat`.
* Random number generators (`rand::thread_rng`) are modelled as explicit
  oracle arguments (`Nat → Nat` streams of draws); `gen_range(10..100)` on a
  draw `r` is `10 + r % 90` and sampling `Alphanumeric` on a draw `r` picks
  index `r % 62` of the 62-character alphanumeric charset, matching the
  uniform-range semantics of the source.
* Fallible gateway calls (directory create/delete, storage writes, mail
  dispatch) are modelled by Boolean oracles giving each call's outcome, and
  functions return the effects they perform (status writes, created job rows,
  arguments of batch inserts/deletes) as data.
* `tokio::select!` races are modelled by an explicit argument naming the arm
  that completes first.
-/

deriving instance DecidableEq for Except

namespace Scipio

/-- Rust `uuid::Uuid`, modelled as a natural number. -/
abbrev Uuid := Nat

/-! ## services/storage/types.rs -/

/-- `JobStatus` from `services/storage/types.rs`. -/
inductive JobStatus where
  | Pending
  | Error
  | Complete
  | Cancelled
deriving DecidableEq, Repr

/-- `JobType` from `services/storage/types.rs`. -/
inductive JobType where
  | AirtableImportBase
  | AirtableExportUsers
  | UndoWorkspaceExport
deriving DecidableEq, Repr

/-- `ExportDesination` from `services/storage/types.rs` (spelling as in source). -/
inductive ExportDesination where
  | GoogleWorkspace
deriving DecidableEq, Repr

/-- `JobData` from `services/storage/types.rs`. -/
inductive JobData where
  | AirtableImportBase (base_id : String)
  | AirtableExportUsers (export_destination : ExportDesination)
  | UndoWorkspaceExport (volunteers : List (Uuid × String))
deriving DecidableEq, Repr

/-- `JobDetails` from `services/storage/types.rs`. -/
structure JobDetails where
  job_type : JobType
  error : Option String
  data : JobData
deriving DecidableEq, Repr

/-! ## Character-level models of the Rust standard library

The export policies call `str::to_lowercase` and `char::is_alphanumeric`.
These are Unicode-aware in Rust.  The models below are exact on the Basic
Latin (ASCII) and Latin-1 Supplement blocks, which cover every character the
theorems below evaluate; code points at `U+0100` and above are treated as
alphanumeric and lowercase-invariant (the statements below never depend on
that region: they either hold for every choice of behaviour there, or carry
an ASCII hypothesis). -/

/-- Model of Rust `char::to_lowercase` restricted to a single output
character: ASCII `A`–`Z` map down by `0x20`; in Latin-1, `À`–`Þ` except `×`
map down by `0x20`; everything else is unchanged. -/
def rustToLowerChar (c : Char) : Char :=
  let n := c.toNat
  if 0x41 ≤ n ∧ n ≤ 0x5A then Char.ofNat (n + 0x20)
  else if 0xC0 ≤ n ∧ n ≤ 0xDE ∧ n ≠ 0xD7 then Char.ofNat (n + 0x20)
  else c

/-- Model of Rust `str::to_lowercase`, applied character-wise. -/
def rustToLower (s : String) : String :=
  String.mk (s.data.map rustToLowerChar)

/-- Model of Rust `char::is_alphanumeric` (Unicode `Alphabetic` or `Number`):
exact on ASCII and Latin-1, `true` above `U+00FF`. -/
def rustIsAlphanumeric (c : Char) : Bool :=
  let n := c.toNat
  if n < 0x80 then c.isAlphanum
  else if 0x100 ≤ n then true
  else if n = 0xAA ∨ n = 0xB2 ∨ n = 0xB3 ∨ n = 0xB5 ∨ n = 0xB9 ∨ n = 0xBA then true
  else if 0xBC ≤ n ∧ n ≤ 0xBE then true
  else if 0xC0 ≤ n ∧ n ≤ 0xD6 then true
  else if 0xD8 ≤ n ∧ n ≤ 0xF6 then true
  else if 0xF8 ≤ n then true
  else false

/-! ## data_exports/workspace/policies.rs -/

/-- The 62-character charset of `rand::distributions::Alphanumeric`. -/
def alphanumericCharset : List Char :=
  "ABCDEFGHIJKLMNOPQRSTUVWXYZabcdefghijklmnopqrstuvwxyz0123456789".data

/-- One draw of the `Alphanumeric` distribution: the RNG draw `r` selects a
charset index uniformly, modelled as `r % 62`. -/
def sampleAlphanumeric (r : Nat) : Char :=
  alphanumericCharset.get ⟨r % alphanumericCharset.length, Nat.mod_lt _ (by decide)⟩

/-- `rand::thread_rng().sample_iter(&Alphanumeric).take(n).collect::<String>()`
with the RNG modelled as the draw stream `rng`. -/
def randomAlphanumericString (n : Nat) (rng : Nat → Nat) : String :=
  String.mk ((List.range n).map fun i => sampleAlphanumeric (rng i))

/-- `EmailPolicy` from `data_exports/workspace/policies.rs`. -/
structure EmailPolicy where
  add_unique_numeric_suffix : Bool
  separator : Option String
  use_first_and_last_name : Bool

/-- The local part built by `EmailPolicy::build_volunteer_email` before the
domain is appended: lowercase the names, concatenate (with the separator, as
is, in between when both names are used), append a random two-digit suffix
when requested, then keep only the alphanumeric characters.  `seed` is the
RNG draw behind `rng.gen_range(10..100)`. -/
def EmailPolicy.email_handle (p : EmailPolicy) (first_name last_name : String)
    (seed : Nat) : String :=
  let base :=
    if p.use_first_and_last_name then
      rustToLower first_name ++ (p.separator.getD "") ++ rustToLower last_name
    else
      rustToLower first_name
  let base :=
    if p.add_unique_numeric_suffix then base ++ toString (10 + seed % 90) else base
  String.mk (base.data.filter rustIsAlphanumeric)

/-- `EmailPolicy::build_volunteer_email` from
`data_exports/workspace/policies.rs`: the cleaned handle with the fixed
domain appended. -/
def EmailPolicy.build_volunteer_email (p : EmailPolicy) (first_name last_name : String)
    (seed : Nat) : String :=
  p.email_handle first_name last_name seed ++ "@volunteer.developforgood.org"

/-- `PasswordPolicy` from `data_exports/workspace/policies.rs`;
`generated_password_length` is a `u8` in the source, so it ranges over
`0..=255`. -/
structure PasswordPolicy where
  change_password_at_next_login : Bool
  generated_password_length : Nat

/-- `PasswordPolicy::generate_password`: lengths outside `8..=64` (the `u8`
match arms `0..=7 | 65..`) fall back to 8 characters. -/
def PasswordPolicy.generate_password (p : PasswordPolicy) (rng : Nat → Nat) : String :=
  if p.generated_password_length ≤ 7 ∨ 65 ≤ p.generated_password_length then
    randomAlphanumericString 8 rng
  else
    randomAlphanumericString p.generated_password_length rng

/-- The free function `generate_password(len: u8)` from
`data_exports/export_users_to_workspace.rs`, with the same body as the
policy method. -/
def generate_password (len : Nat) (rng : Nat → Nat) : String :=
  if len ≤ 7 ∨ 65 ≤ len then randomAlphanumericString 8 rng
  else randomAlphanumericString len rng

/-! ## Shared export data model

`VolunteerDetails` (from `services/storage/entities.rs`) carries many more
columns; the export pipeline reads exactly the four fields below, which is
what the embedding keeps. -/

/-- The fields of `storage::entities::VolunteerDetails` read by the export
pipeline. -/
structure VolunteerDetails where
  volunteer_id : Uuid
  first_name : String
  last_name : String
  email : String
deriving DecidableEq, Repr

/-- `Name` from `services/workspace/entities.rs`. -/
structure Name where
  given_name : String
  family_name : String
deriving DecidableEq, Repr

/-- `CreateWorkspaceUser` from `services/workspace/entities.rs` (the fields
set by the export pipelines). -/
structure CreateWorkspaceUser where
  primary_email : String
  name : Name
  password : String
  change_password_at_next_login : Bool
  recovery_email : String
deriving DecidableEq, Repr

/-- `InsertVolunteerExportedToWorkspace` from
`services/storage/volunteers.rs`: one ledger row. -/
structure InsertVolunteerExportedToWorkspace where
  volunteer_id : Uuid
  job_id : Uuid
  workspace_email : String
  org_unit : String
deriving DecidableEq, Repr

/-- `OnboardingEmailParams` from `services/mail` (the fields set by the
export pipelines; `send_at` is only set by the legacy pipeline). -/
structure OnboardingEmailParams where
  first_name : String
  last_name : String
  email : String
  workspace_email : String
  temporary_password : String
  send_at : Option Nat
deriving DecidableEq, Repr

/-- `ExportUsersToWorkspaceRequest` from `data_exports/requests.rs`. -/
structure ExportUsersToWorkspaceRequest where
  add_unique_numeric_suffix : Bool
  change_password_at_next_login : Bool
  generated_password_length : Nat
  separator : Option String
  skip_users_on_conflict : Bool
  use_first_and_last_name : Bool
  volunteers : List VolunteerDetails

/-! ## data_exports/workspace/mod.rs — the export pipeline wired to the API

`data_exports/mod.rs` declares the modules `controllers`, `requests`,
`responses` and `workspace`, and `controllers.rs` spawns
`workspace::export_task`; this namespace embeds that pipeline. -/

namespace Workspace

/-- `ExportParams` from `data_exports/workspace/mod.rs`. -/
structure ExportParams where
  job_id : Uuid
  principal : String
  email_policy : EmailPolicy
  password_policy : PasswordPolicy
  volunteers : List VolunteerDetails

/-- `ProcessedVolunteers` from `data_exports/workspace/mod.rs`. -/
structure ProcessedVolunteers where
  export_data : List CreateWorkspaceUser
  pantheon_data : List InsertVolunteerExportedToWorkspace
  onboarding_email_data : List OnboardingEmailParams

/-- `process_volunteers` from `data_exports/workspace/mod.rs`: one pass over
the volunteers producing, per volunteer, the directory payload, the ledger
row and the onboarding-mail payload.  `emailSeed i` and `pwRng i` are the RNG
draws used for the `i`-th volunteer's email suffix and password. -/
def process_volunteers (params : ExportParams) (emailSeed : Nat → Nat)
    (pwRng : Nat → Nat → Nat) : ProcessedVolunteers :=
  let rows := params.volunteers.enum.map fun iv =>
    let primary_email :=
      params.email_policy.build_volunteer_email iv.2.first_name iv.2.last_name
        (emailSeed iv.1)
    let temporary_password := params.password_policy.generate_password (pwRng iv.1)
    let workspace_user : CreateWorkspaceUser :=
      { primary_email := primary_email
        name := { given_name := iv.2.first_name, family_name := iv.2.last_name }
        password := temporary_password
        change_password_at_next_login := params.password_policy.change_password_at_next_login
        recovery_email := iv.2.email }
    let onboarding : OnboardingEmailParams :=
      { first_name := workspace_user.name.given_name
        last_name := workspace_user.name.family_name
        -- the source hard-codes the recipient during development
        email := "anish@developforgood.org"
        workspace_email := workspace_user.primary_email
        temporary_password := workspace_user.password
        send_at := none }
    let pantheon : InsertVolunteerExportedToWorkspace :=
      { volunteer_id := iv.2.volunteer_id
        job_id := params.job_id
        workspace_email := primary_email
        org_unit := "/Programs/PantheonUsers" }
    (workspace_user, pantheon, onboarding)
  { export_data := rows.map (·.1)
    pantheon_data := rows.map (·.2.1)
    onboarding_email_data := rows.map (·.2.2) }

/-- `export_volunteers_to_workspace` from `data_exports/workspace/mod.rs`:
sequential directory creations in request order, counting successes and
stopping at the first failure.  `createOk i` is the outcome of the `i`-th
`create_user` call; the index argument threads the position. -/
def export_volunteers_to_workspace (createOk : Nat → Bool) :
    Nat → List CreateWorkspaceUser → Nat
  | _, [] => 0
  | i, _ :: rest =>
    if createOk i then export_volunteers_to_workspace createOk (i + 1) rest + 1
    else 0

/-- `send_onboarding_emails` from `data_exports/workspace/mod.rs` dispatches
the mails in order and propagates the first failure; its overall result is a
success iff every dispatch succeeds.  `sendOk i` is the outcome of the `i`-th
dispatch. -/
def send_onboarding_emails (sendOk : Nat → Bool)
    (onboarding_data : List OnboardingEmailParams) : Bool :=
  onboarding_data.enum.all fun ie => sendOk ie.1

/-- The observable effects of one run of `workspace::export_task`. -/
structure ExportTaskRun where
  /-- Number of volunteers in the processed request. -/
  requested : Nat
  /-- Value of `exported_count` when the loop stopped. -/
  exportedCount : Nat
  /-- The list passed to `batch_insert_volunteers_exported_to_workspace`. -/
  ledgerArg : List InsertVolunteerExportedToWorkspace
  /-- Outcome of that ledger insert. -/
  saveOk : Bool
  /-- The list passed to `send_onboarding_emails` (`none` when the ledger
  insert failed and the dispatch step was never reached). -/
  mailArg : Option (List OnboardingEmailParams)
  /-- The single job-status write performed (`mark_job_complete` or
  `mark_job_errored`). -/
  statusWrite : JobStatus × Option String
  /-- Undo sub-jobs created by this run (this pipeline never creates any). -/
  undoJobsSpawned : List JobDetails
deriving DecidableEq, Repr

/-- `export_task` from `data_exports/workspace/mod.rs`: process the
volunteers, run the sequential export loop, truncate the ledger and mail
lists to `exported_count` when the loop stopped early, persist the ledger,
dispatch the mails, and mark the job `Complete` when both steps succeed and
`Error` when either fails.  `saveOk` is the outcome of the ledger batch
insert and `sendOk` the per-mail dispatch outcomes.  The nested match of the
source (ledger insert, then mail dispatch, then `mark_job_complete` /
`mark_job_errored`) is encoded in the `mailArg` and `statusWrite` fields of
the single run record. -/
def export_task (params : ExportParams) (emailSeed : Nat → Nat)
    (pwRng : Nat → Nat → Nat) (createOk : Nat → Bool) (saveOk : Bool)
    (sendOk : Nat → Bool) : ExportTaskRun :=
  let processed := process_volunteers params emailSeed pwRng
  let number_of_users_to_export := processed.export_data.length
  let exported_count := export_volunteers_to_workspace createOk 0 processed.export_data
  let pantheon_data :=
    if exported_count ≠ number_of_users_to_export then
      processed.pantheon_data.take exported_count
    else processed.pantheon_data
  let onboarding_email_data :=
    if exported_count ≠ number_of_users_to_export then
      processed.onboarding_email_data.take exported_count
    else processed.onboarding_email_data
  { requested := number_of_users_to_export
    exportedCount := exported_count
    ledgerArg := pantheon_data
    saveOk := saveOk
    mailArg := if saveOk then some onboarding_email_data else none
    statusWrite :=
      if saveOk then
        if send_onboarding_emails sendOk onboarding_email_data then
          (JobStatus.Complete, none)
        else (JobStatus.Error, some "failed to send onboarding email")
      else (JobStatus.Error, some "failed to insert exported volunteers")
    undoJobsSpawned := [] }

end Workspace

/-! ## data_exports/export_users_to_workspace.rs — the select-based export task

This module (not reachable from `data_exports/mod.rs`, which does not declare
it) contains the `tokio::select!` race of the export loop against a
cancellation signal and a 1200-second timeout, and the undo machinery. -/

namespace ExportUsers

/-- `build_email` from `data_exports/export_users_to_workspace.rs`.  Unlike
the policy method, it does not lowercase its inputs (its caller does) and the
domain is `@developforgood.org`. -/
def build_email (use_first_and_last_names add_unique_numeric_suffix : Bool)
    (separator : Option String) (first_name last_name : String) (seed : Nat) :
    String :=
  let base :=
    if use_first_and_last_names then first_name ++ separator.getD "" ++ last_name
    else first_name
  let base :=
    if add_unique_numeric_suffix then base ++ toString (10 + seed % 90) else base
  String.mk (base.data.filter rustIsAlphanumeric) ++ "@developforgood.org"

/-- `ExportUsersToWorkspaceTaskParams` from
`data_exports/export_users_to_workspace.rs` (the NATS subscriber is modelled
by the select-winner argument of `export_task`). -/
structure TaskParams where
  principal : String
  request : ExportUsersToWorkspaceRequest
  job_id : Uuid
  project_cycle_id : Uuid

/-- `ProcessVolunteersResult` from
`data_exports/export_users_to_workspace.rs`.  The `HashMap` `id_map` is
modelled as an association list with newest insertions first, so
`List.lookup` matches `HashMap::get` after overwriting inserts. -/
structure ProcessVolunteersResult where
  processed_volunteers : List CreateWorkspaceUser
  pantheon_user_data : List InsertVolunteerExportedToWorkspace
  id_map : List (String × Uuid)

/-- `process_volunteers` from `data_exports/export_users_to_workspace.rs`:
lowercases the names at the call site of `build_email`, fills the directory
payloads and ledger rows, and records generated email → volunteer id in
`id_map`. -/
def process_volunteers (params : TaskParams) (emailSeed : Nat → Nat)
    (pwRng : Nat → Nat → Nat) : ProcessVolunteersResult :=
  let primary_email := fun (iv : Nat × VolunteerDetails) =>
    build_email params.request.use_first_and_last_name
      params.request.add_unique_numeric_suffix params.request.separator
      (rustToLower iv.2.first_name) (rustToLower iv.2.last_name) (emailSeed iv.1)
  { processed_volunteers := params.request.volunteers.enum.map fun iv =>
      { primary_email := primary_email iv
        name := { given_name := iv.2.first_name, family_name := iv.2.last_name }
        password :=
          generate_password params.request.generated_password_length (pwRng iv.1)
        change_password_at_next_login := params.request.change_password_at_next_login
        recovery_email := iv.2.email }
    pantheon_user_data := params.request.volunteers.enum.map fun iv =>
      { volunteer_id := iv.2.volunteer_id
        job_id := params.job_id
        workspace_email := primary_email iv
        org_unit := "/Programs/PantheonUsers" }
    id_map :=
      (params.request.volunteers.enum.map fun iv =>
        (primary_email iv, iv.2.volunteer_id)).reverse }

/-- The per-user body of `export_users_to_workspace`: create the directory
user (stop on failure), push `(id_map[primary_email], primary_email)` onto
`successfully_exported_users`, then send the onboarding mail (stop on
failure).  Returns the export result together with the accumulated
`successfully_exported_users`. -/
def export_users_loop (id_map : List (String × Uuid)) (createOk sendOk : Nat → Bool) :
    Nat → List CreateWorkspaceUser → Except String Unit × List (Uuid × String)
  | _, [] => (Except.ok (), [])
  | i, user :: rest =>
    if createOk i then
      let pushed :=
        match id_map.lookup user.primary_email with
        | some id => [(id, user.primary_email)]
        | none => []
      if sendOk i then
        let tail := export_users_loop id_map createOk sendOk (i + 1) rest
        (tail.1, pushed ++ tail.2)
      else (Except.error "failed to send onboarding email", pushed)
    else (Except.error "failed to create user in Google Workspace", [])

/-- `export_users_to_workspace` from
`data_exports/export_users_to_workspace.rs`: run the loop, then (only when
every user succeeded) batch-insert the ledger rows when there are any;
`insertOk` is that insert's outcome. -/
def export_users_to_workspace (createOk sendOk : Nat → Bool) (insertOk : Bool)
    (result : ProcessVolunteersResult) : Except String Unit × List (Uuid × String) :=
  let run := export_users_loop result.id_map createOk sendOk 0 result.processed_volunteers
  match run.1 with
  | Except.error e => (Except.error e, run.2)
  | Except.ok () =>
    if result.pantheon_user_data ≠ [] ∧ insertOk = false then
      (Except.error "failed to insert exported volunteers", run.2)
    else (Except.ok (), run.2)

/-- The effects of one run of `undo_partial_export`. -/
structure UndoRun where
  /-- Users whose directory deletion succeeded, in iteration order. -/
  successfully_deleted : List (Uuid × String)
  /-- Users whose directory deletion failed, in iteration order. -/
  failed_deletions : List (Uuid × String)
  /-- The ids passed to `batch_remove_volunteers_exported_to_workspace`. -/
  ledgerRemoveArg : List Uuid
  /-- The function's return value: `ok failed_deletions`, or an error when
  the ledger batch removal failed. -/
  result : Except String (List (Uuid × String))
deriving DecidableEq, Repr

/-- `undo_partial_export` from `data_exports/export_users_to_workspace.rs`:
greedily delete every user from the directory (`deleteOk i` is the outcome of
the `i`-th delete), collect failures, then batch-remove the ledger rows of
the successfully deleted users (`removeOk` is that removal's outcome, and its
failure is propagated as the function's error). -/
def undo_partial_export (deleteOk : Nat → Bool) (removeOk : Bool)
    (successfully_exported_users : List (Uuid × String)) : UndoRun :=
  let successfully_deleted :=
    (successfully_exported_users.enum.filter fun iu => deleteOk iu.1).map (·.2)
  let failed_deletions :=
    (successfully_exported_users.enum.filter fun iu => !deleteOk iu.1).map (·.2)
  { successfully_deleted := successfully_deleted
    failed_deletions := failed_deletions
    ledgerRemoveArg := successfully_deleted.map (·.1)
    result :=
      if removeOk then Except.ok failed_deletions
      else Except.error "failed to remove exported volunteers" }

/-- `post_cancellation_undo_partial_export_task` from
`data_exports/export_users_to_workspace.rs`: run the undo, then write the
undo job's status — `Complete` iff `undo_partial_export` returned `ok`
(which it does even when some directory deletions failed). -/
def post_cancellation_undo_partial_export_task (deleteOk : Nat → Bool)
    (removeOk : Bool) (successfully_exported_users : List (Uuid × String)) :
    UndoRun × (JobStatus × Option String) :=
  let run := undo_partial_export deleteOk removeOk successfully_exported_users
  match run.result with
  | Except.ok _ => (run, (JobStatus.Complete, none))
  | Except.error e => (run, (JobStatus.Error, some ("failed to undo partial export: " ++ e)))

/-- `post_export_undo_task` from
`data_exports/export_users_to_workspace.rs`: run the undo; an undo error
propagates before any status write; otherwise write `Complete` iff there were
no failed deletions, else `Error` with the failures. -/
def post_export_undo_task (deleteOk : Nat → Bool) (removeOk : Bool)
    (successfully_exported_users : List (Uuid × String)) :
    UndoRun × Option (JobStatus × Option String) :=
  let run := undo_partial_export deleteOk removeOk successfully_exported_users
  match run.result with
  | Except.error _ => (run, none)
  | Except.ok failed_deletions =>
    if failed_deletions.isEmpty then (run, some (JobStatus.Complete, none))
    else (run, some (JobStatus.Error, some "failed to delete users"))

/-- The externally visible writes of one arm of the select-based task:
job-status updates `(job id, status, error)` in order, and job rows created
via `create_job`. -/
structure SelectRun where
  statusWrites : List (Uuid × JobStatus × Option String)
  jobsCreated : List JobDetails
deriving DecidableEq, Repr

/-- `handle_post_export` (plus the spawned `post_export_undo_task`) from
`data_exports/export_users_to_workspace.rs`: write the export job's terminal
status from the export result; when it is `Error` and some users were
exported, create an `UndoWorkspaceExport` job over them and run the undo
task, which writes the undo job's status. -/
def handle_post_export (deleteOk : Nat → Bool) (removeOk : Bool)
    (job_id undo_job_id : Uuid) (export_result : Except String Unit)
    (successfully_exported_users : List (Uuid × String)) : SelectRun :=
  let statusErr : JobStatus × Option String :=
    match export_result with
    | Except.ok _ => (JobStatus.Complete, none)
    | Except.error e =>
      (JobStatus.Error,
        some ("unrecoverable error exporting all users to Google Workspace: " ++ e))
  if statusErr.1 = JobStatus.Error ∧ successfully_exported_users ≠ [] then
    let undo := post_export_undo_task deleteOk removeOk successfully_exported_users
    { statusWrites :=
        (job_id, statusErr) ::
          (match undo.2 with
           | some sw => [(undo_job_id, sw)]
           | none => [])
      jobsCreated :=
        [{ job_type := JobType.UndoWorkspaceExport
           error := none
           data := JobData.UndoWorkspaceExport successfully_exported_users }] }
  else { statusWrites := [(job_id, statusErr)], jobsCreated := [] }

/-- `handle_post_cancellation` / `handle_post_cancellation_undo_export` (plus
the spawned `post_cancellation_undo_partial_export_task`) from
`data_exports/export_users_to_workspace.rs`: create the undo job over the
successfully exported users, mark the export job `Cancelled`, then run the
undo task, which writes the undo job's status. -/
def handle_post_cancellation (deleteOk : Nat → Bool) (removeOk : Bool)
    (job_id undo_job_id : Uuid)
    (successfully_exported_users : List (Uuid × String)) : SelectRun :=
  let undo :=
    post_cancellation_undo_partial_export_task deleteOk removeOk
      successfully_exported_users
  { statusWrites :=
      [(job_id, JobStatus.Cancelled, none), (undo_job_id, undo.2)]
    jobsCreated :=
      [{ job_type := JobType.UndoWorkspaceExport
         error := none
         data := JobData.UndoWorkspaceExport successfully_exported_users }] }

/-- Which future of the `tokio::select!` in `export_task` completes first:
the cancellation subscription, the export loop, or the timeout timer. -/
inductive SelectWinner where
  | cancellation
  | exportLoop
  | timeout
deriving DecidableEq, Repr

/-- The duration of the timeout future raced in `export_task`:
`time::sleep(Duration::from_secs(1200))`. -/
def export_timeout_secs : Nat := 1200

/-- `export_task` from `data_exports/export_users_to_workspace.rs`: process
the volunteers, then race cancellation, the export loop and the 1200-second
timeout.  `winner` names the arm that completes first;
`progressAtInterrupt` is the content of `successfully_exported_users` at the
moment cancellation wins (the loop's partial progress).  The timeout arm
only logs a warning: it performs no status write and creates no job. -/
def export_task (params : TaskParams) (emailSeed : Nat → Nat)
    (pwRng : Nat → Nat → Nat) (createOk sendOk : Nat → Bool) (insertOk : Bool)
    (deleteOk : Nat → Bool) (removeOk : Bool) (undo_job_id : Uuid)
    (winner : SelectWinner) (progressAtInterrupt : List (Uuid × String)) :
    SelectRun :=
  let process_result := process_volunteers params emailSeed pwRng
  match winner with
  | SelectWinner.cancellation =>
    handle_post_cancellation deleteOk removeOk params.job_id undo_job_id
      progressAtInterrupt
  | SelectWinner.exportLoop =>
    let run := export_users_to_workspace createOk sendOk insertOk process_result
    handle_post_export deleteOk removeOk params.job_id undo_job_id run.1 run.2
  | SelectWinner.timeout => { statusWrites := [], jobsCreated := [] }

end ExportUsers

/-! ## data_exports/controllers.rs — the export HTTP boundary -/

namespace ExportsController

/-- The observable outcome of one call of the export controller. -/
structure ControllerRun where
  /-- Whether `create_job` inserted a job row during this call. -/
  jobCreated : Bool
  /-- The HTTP status of the response. -/
  response : Nat
  /-- Whether `workspace::export_task` was spawned. -/
  taskSpawned : Bool
  /-- The volunteer list handed to the spawned task (`none` when no task was
  spawned). -/
  taskVolunteers : Option (List VolunteerDetails)
  /-- Directory (`create_user`) calls made by the controller itself. -/
  directoryCalls : Nat
deriving DecidableEq, Repr

/-- `export_users_to_workspace` from `data_exports/controllers.rs`: create
the job row, fetch the already-exported ids for the cycle, then either drop
conflicting volunteers (`skip_users_on_conflict`) or return 400 when any
requested volunteer was already exported; otherwise spawn the export task.
The job row is created before the conflict check runs. -/
def export_users_to_workspace (request : ExportUsersToWorkspaceRequest)
    (already_exported : List Uuid) : ControllerRun :=
  if request.skip_users_on_conflict then
    { jobCreated := true
      response := 200
      taskSpawned := true
      taskVolunteers :=
        some (request.volunteers.filter fun v =>
          !already_exported.contains v.volunteer_id)
      directoryCalls := 0 }
  else if request.volunteers.any fun v => already_exported.contains v.volunteer_id then
    { jobCreated := true
      response := 400
      taskSpawned := false
      taskVolunteers := none
      directoryCalls := 0 }
  else
    { jobCreated := true
      response := 200
      taskSpawned := true
      taskVolunteers := some request.volunteers
      directoryCalls := 0 }

end ExportsController

/-! ## data_imports/controllers.rs — the import HTTP boundary -/

namespace ImportsController

/-- The observable outcome of one call of the import controller. -/
structure ControllerRun where
  /-- The HTTP status of the response. -/
  response : Nat
  /-- Whether `create_job` inserted a job row during this call. -/
  jobCreated : Bool
  /-- Whether the import pipeline task was spawned. -/
  taskSpawned : Bool
deriving DecidableEq, Repr

/-- `import_airtable_base` from `data_imports/controllers.rs`.  When
`schema.validate()` is false the source constructs
`api_response::error(StatusCode::BAD_REQUEST, "Invalid schema for Airtable
base")` but drops the value instead of returning it, so control always falls
through to create the job row, subscribe, spawn the import task and answer
200 with the job id.  The discarded response value is kept here to mirror
that statement. -/
def import_airtable_base (schema_valid : Bool) : ControllerRun :=
  let _discarded_error_response :=
    if schema_valid then none else some (400, "Invalid schema for Airtable base")
  { response := 200, jobCreated := true, taskSpawned := true }

end ImportsController

/-! ## services/storage/jobs.rs — job status writes

The Rust methods `update_job_status` and `cancel_job` execute SQL loaded
from `queries/jobs/update_job_status.sql` and `queries/jobs/cancel_job.sql`;
those query files are not part of the source tree. -/

namespace StorageJobs

/-- A job row, restricted to the columns status writes touch. -/
structure Job where
  id : Uuid
  status : JobStatus
  error : Option String
deriving DecidableEq, Repr

/-- `UpdateJobStatus` from `services/storage/jobs.rs`. -/
structure UpdateJobStatus where
  status : JobStatus
  error : Option String
deriving DecidableEq, Repr

/-- Whether a status is terminal: spec §4.5, terminal set is Complete,
Error, Cancelled. -/
def JobStatus.isTerminal : JobStatus → Bool
  | JobStatus.Pending => false
  | JobStatus.Complete => true
  | JobStatus.Error => true
  | JobStatus.Cancelled => true

/-- Modelled from the spec: the body of `queries/jobs/update_job_status.sql`
(executed by `update_job_status` in `services/storage/jobs.rs`) is missing
from the source tree, so the write is modelled on spec §4.5: "No transition
out of a terminal state is permitted" — a status write against a terminal
row leaves it unchanged. -/
def update_job_status (job : Job) (data : UpdateJobStatus) : Job :=
  if JobStatus.isTerminal job.status then job
  else { job with status := data.status, error := data.error }

/-- Modelled from the spec: the body of `queries/jobs/cancel_job.sql`
(executed by `cancel_job` in `services/storage/jobs.rs`) is missing from the
source tree, so it is modelled on spec §4.5: "Attempts to cancel a terminal
job are no-ops and return success" — the returned Boolean is the success of
the call. -/
def cancel_job (job : Job) : Job × Bool :=
  if JobStatus.isTerminal job.status then (job, true)
  else ({ job with status := JobStatus.Cancelled }, true)

end StorageJobs

/-! ## data_imports/import_airtable_base.rs — the import pipeline -/

namespace ImportPipeline

/-- The linkage-resolution step of `store_base_data` in
`data_imports/import_airtable_base.rs` for the volunteer↔nonprofit table:
each raw `(volunteer email, nonprofit org_name)` pair is resolved against
the id maps returned by the batch inserts; a pair either of whose sides is
absent from its map is dropped.  The `HashMap`s are modelled by their lookup
functions. -/
def resolve_volunteer_nonprofit_linkage
    (volunteer_email_id_map nonprofit_name_id_map : String → Option Uuid)
    (volunteer_nonprofit_linkage : List (String × String)) : List (Uuid × Uuid) :=
  volunteer_nonprofit_linkage.filterMap fun p =>
    match volunteer_email_id_map p.1, nonprofit_name_id_map p.2 with
    | some volunteer_id, some nonprofit_id => some (volunteer_id, nonprofit_id)
    | _, _ => none

/-- `MentorYearsExperience` from `services/storage/types.rs`. -/
inductive MentorYearsExperience where
  | R2_5
  | R6_10
  | R11_15
  | R16_20
  | R21Plus
deriving DecidableEq, Repr

/-- `MentorExperienceLevel` from `services/storage/types.rs`. -/
inductive MentorExperienceLevel where
  | Intermediate
  | FirstLevelManagement
  | MiddleManagement
  | SeniorOrExecutive
deriving DecidableEq, Repr

/-- `VolunteerHearAbout` from `services/storage/types.rs`. -/
inductive VolunteerHearAbout where
  | Linkedin
  | University
  | CompanySocialImpactTeam
  | Colleague
  | DfgMember
  | Nonprofit
  | OnlineAd
  | Instagram
  | WordOfMouth
  | Bootcamp
  | DiscordOrSlack
  | Unknown
  | Other
deriving DecidableEq, Repr

/-- `IntermediateMentorData` from `data_imports/import_airtable_base.rs`:
the deserialized mentor record, with `years_experience` still free text. -/
structure IntermediateMentorData where
  first_name : String
  last_name : String
  email : String
  phone : String
  company : String
  job_title : String
  country : String
  us_state : Option String
  years_experience : String
  experience_level : MentorExperienceLevel
  prior_mentorship : List String
  prior_dfg : Option (List String)
  university : Option (List String)
  hear_about : Option (List VolunteerHearAbout)

/-- `CreateMentor` from `services/storage/mentors.rs`. -/
structure CreateMentor where
  first_name : String
  last_name : String
  email : String
  phone : String
  company : String
  job_title : String
  country : String
  us_state : Option String
  years_experience : MentorYearsExperience
  experience_level : MentorExperienceLevel
  prior_mentor : Bool
  prior_mentee : Bool
  prior_student : Bool
  university : List String
  hear_about : List VolunteerHearAbout
deriving DecidableEq, Repr

/-- The `From` impl `IntermediateMentorData → CreateMentor` in
`data_imports/import_airtable_base.rs`: the `years_experience` free text is
matched against the four literal ranges with `21+` as the catch-all;
`prior_mentor`/`prior_mentee`/`prior_student` come from literal membership
tests. -/
def CreateMentor.fromIntermediate (value : IntermediateMentorData) : CreateMentor :=
  { first_name := value.first_name
    last_name := value.last_name
    email := value.email
    phone := value.phone
    company := value.company
    job_title := value.job_title
    country := value.country
    us_state := value.us_state
    years_experience :=
      match value.years_experience with
      | "2-5" => MentorYearsExperience.R2_5
      | "6-10" => MentorYearsExperience.R6_10
      | "11-15" => MentorYearsExperience.R11_15
      | "16-20" => MentorYearsExperience.R16_20
      | _ => MentorYearsExperience.R21Plus
    experience_level := value.experience_level
    prior_mentor := value.prior_mentorship.contains "Yes, I\x27ve been a mentor"
    prior_mentee := value.prior_mentorship.contains "Yes, I\x27ve been a mentee"
    prior_student := (value.prior_dfg.getD []).contains "Yes"
    university := value.university.getD []
    hear_about := value.hear_about.getD [VolunteerHearAbout.Other] }

end ImportPipeline

/-! ## Concrete inputs used by counterexamples and witnesses -/

/-- A one-volunteer export request processed with failing directory creation:
used to exercise the partial-completion path of `workspace::export_task`. -/
def c1Params : Workspace.ExportParams :=
  { job_id := 7
    principal := "ops@developforgood.org"
    email_policy :=
      { add_unique_numeric_suffix := false, separator := none
        use_first_and_last_name := false }
    password_policy :=
      { change_password_at_next_login := true, generated_password_length := 8 }
    volunteers :=
      [{ volunteer_id := 1, first_name := "Ada", last_name := "Lovelace"
         email := "ada@example.org" }] }

/-- The run of `workspace::export_task` on `c1Params` where the single
directory creation fails and both the ledger insert and mail dispatch
succeed. -/
def c1Run : Workspace.ExportTaskRun :=
  Workspace.export_task c1Params (fun _ => 0) (fun _ _ => 0) (fun _ => false) true
    (fun _ => true)

/-- An export request in strict mode (`skip_users_on_conflict = false`)
naming one volunteer. -/
def c2Request : ExportUsersToWorkspaceRequest :=
  { add_unique_numeric_suffix := false
    change_password_at_next_login := false
    generated_password_length := 12
    separator := none
    skip_users_on_conflict := false
    use_first_and_last_name := true
    volunteers :=
      [{ volunteer_id := 2, first_name := "Grace", last_name := "Hopper"
         email := "grace@example.org" }] }

/-- The export controller run on `c2Request` when volunteer 2 is already in
the ledger for the cycle. -/
def c2Run : ExportsController.ControllerRun :=
  ExportsController.export_users_to_workspace c2Request [2]

/-- The select-based export task run on a one-volunteer request where the
timeout arm wins after one user was already exported. -/
def c4Run : ExportUsers.SelectRun :=
  ExportUsers.export_task
    { principal := "ops@developforgood.org"
      request := c2Request
      job_id := 11
      project_cycle_id := 3 }
    (fun _ => 0) (fun _ _ => 0) (fun _ => true) (fun _ => true) true
    (fun _ => true) true 12 ExportUsers.SelectWinner.timeout
    [(2, "gracehopper@developforgood.org")]

/-- The post-cancellation undo task run over one exported user whose
directory deletion fails while the ledger removal succeeds. -/
def c5Run : ExportUsers.UndoRun × (JobStatus × Option String) :=
  ExportUsers.post_cancellation_undo_partial_export_task (fun _ => false) true
    [(1, "adalovelace@developforgood.org")]

/-- A mentor record whose `YearsExperience` free text is empty. -/
def c10Mentor : ImportPipeline.IntermediateMentorData :=
  { first_name := "Alan"
    last_name := "Turing"
    email := "alan@example.org"
    phone := "555-0100"
    company := "ACME"
    job_title := "Engineer"
    country := "US"
    us_state := some "CA"
    years_experience := ""
    experience_level := ImportPipeline.MentorExperienceLevel.Intermediate
    prior_mentorship := []
    prior_dfg := none
    university := none
    hear_about := none }

/-- The email shape claimed by spec P4, following the spec's words: a
non-empty handle of characters from `[a-z0-9]` followed by the fixed
domain. -/
def specEmailPattern (s : String) : Bool :=
  let domain := "@volunteer.developforgood.org"
  let handle := s.dropRight domain.length
  s == handle ++ domain && handle.length > 0
    && handle.data.all fun c => c.isLower || c.isDigit

/-! ## Helper lemmas -/

lemma char_toNat_ofNat (n : Nat) (h : n < 0xD800) : (Char.ofNat n).toNat = n := by
  have hv : n.isValidChar := Or.inl h
  rw [Char.ofNat, dif_pos hv]
  simp [Char.ofNatAux, Char.toNat, UInt32.toNat, UInt32.ofNat', BitVec.toNat_ofNat]

lemma char_isUpper_iff (c : Char) :
    c.isUpper = true ↔ 65 ≤ c.toNat ∧ c.toNat ≤ 90 := by
  simp only [Char.isUpper, Bool.and_eq_true, decide_eq_true_eq]
  exact Iff.rfl

lemma char_isLower_iff (c : Char) :
    c.isLower = true ↔ 97 ≤ c.toNat ∧ c.toNat ≤ 122 := by
  simp only [Char.isLower, Bool.and_eq_true, decide_eq_true_eq]
  exact Iff.rfl

lemma char_isDigit_iff (c : Char) :
    c.isDigit = true ↔ 48 ≤ c.toNat ∧ c.toNat ≤ 57 := by
  simp only [Char.isDigit, Bool.and_eq_true, decide_eq_true_eq]
  exact Iff.rfl

lemma char_isAlphanum_iff (c : Char) :
    c.isAlphanum = true
      ↔ (65 ≤ c.toNat ∧ c.toNat ≤ 90) ∨ (97 ≤ c.toNat ∧ c.toNat ≤ 122)
        ∨ (48 ≤ c.toNat ∧ c.toNat ≤ 57) := by
  simp only [Char.isAlphanum, Char.isAlpha, Bool.or_eq_true, char_isUpper_iff c,
    char_isLower_iff c, char_isDigit_iff c]
  tauto

lemma rustToLowerChar_ascii (c : Char) (h : c.toNat < 0x80) :
    (rustToLowerChar c).toNat < 0x80 ∧ (rustToLowerChar c).isUpper = false := by
  unfold rustToLowerChar
  by_cases h1 : 0x41 ≤ c.toNat ∧ c.toNat ≤ 0x5A
  · rw [if_pos h1]
    have ht : (Char.ofNat (c.toNat + 0x20)).toNat = c.toNat + 0x20 :=
      char_toNat_ofNat _ (by omega)
    refine ⟨by omega, ?_⟩
    rw [Bool.eq_false_iff]
    intro hu
    have := (char_isUpper_iff _).mp hu
    omega
  · rw [if_neg h1, if_neg (by omega)]
    refine ⟨h, ?_⟩
    rw [Bool.eq_false_iff]
    intro hu
    have := (char_isUpper_iff _).mp hu
    omega

/-! ## Claim theorems -/

lemma length_randomAlphanumericString (n : Nat) (rng : Nat → Nat) :
    (randomAlphanumericString n rng).length = n := by
  simp [randomAlphanumericString, String.length]

lemma mem_alphanumericCharset_isAlphanum :
    ∀ c ∈ alphanumericCharset, c.isAlphanum = true := by decide

lemma sampleAlphanumeric_isAlphanum (r : Nat) :
    (sampleAlphanumeric r).isAlphanum = true :=
  mem_alphanumericCharset_isAlphanum _ (List.get_mem _ _ _)

lemma mem_randomAlphanumericString (n : Nat) (rng : Nat → Nat) :
    ∀ c ∈ (randomAlphanumericString n rng).data, c.isAlphanum = true := by
  intro c hc
  simp only [randomAlphanumericString, List.mem_map, List.mem_range] at hc
  obtain ⟨i, _, rfl⟩ := hc
  exact sampleAlphanumeric_isAlphanum _

/-- C3: when the base fails schema validation, the import controller still
answers 200, creates the job row and spawns the import pipeline — the 400
error response is built but dropped (the claimed behaviour, 400 with no job,
does not happen). -/
theorem import_invalid_schema_creates_job :
    ImportsController.import_airtable_base false
      = { response := 200, jobCreated := true, taskSpawned := true } := rfl

/-- C6: a job in a terminal status is immutable — a subsequent status write
leaves its status unchanged, and cancelling it is a no-op that returns
success. -/
theorem terminal_job_status_immutable (job : StorageJobs.Job)
    (data : StorageJobs.UpdateJobStatus)
    (h : StorageJobs.JobStatus.isTerminal job.status = true) :
    (StorageJobs.update_job_status job data).status = job.status
    ∧ StorageJobs.cancel_job job = (job, true) := by
  unfold StorageJobs.update_job_status StorageJobs.cancel_job
  rw [if_pos h, if_pos h]
  exact ⟨rfl, rfl⟩

/-- Witness for C6 at a Complete job receiving a Pending write and a
cancellation. -/
theorem terminal_job_status_immutable_witness :
    (StorageJobs.update_job_status
        { id := 1, status := JobStatus.Complete, error := none }
        { status := JobStatus.Pending, error := none }).status = JobStatus.Complete
    ∧ StorageJobs.cancel_job { id := 1, status := JobStatus.Complete, error := none }
        = ({ id := 1, status := JobStatus.Complete, error := none }, true) :=
  terminal_job_status_immutable
    { id := 1, status := JobStatus.Complete, error := none }
    { status := JobStatus.Pending, error := none } (by decide)

/-- C9: the import's linkage-resolution step inserts a link row exactly for
the raw pairs whose both sides resolve against the entity id maps; a pair
with an unresolved side contributes no row. -/
theorem resolve_linkage_mem_iff (vmap nmap : String → Option Uuid)
    (linkage : List (String × String)) (volunteer_id nonprofit_id : Uuid) :
    (volunteer_id, nonprofit_id)
        ∈ ImportPipeline.resolve_volunteer_nonprofit_linkage vmap nmap linkage
      ↔ ∃ email org_name, (email, org_name) ∈ linkage
          ∧ vmap email = some volunteer_id ∧ nmap org_name = some nonprofit_id := by
  unfold ImportPipeline.resolve_volunteer_nonprofit_linkage
  rw [List.mem_filterMap]
  constructor
  · rintro ⟨⟨e, o⟩, hmem, heq⟩
    cases hv : vmap e <;> cases hn : nmap o <;> rw [hv, hn] at heq <;>
      simp only [Option.some.injEq, Prod.mk.injEq, reduceCtorEq] at heq
    exact ⟨e, o, hmem, by rw [hv, heq.1], by rw [hn, heq.2]⟩
  · rintro ⟨e, o, hmem, hv, hn⟩
    exact ⟨(e, o), hmem, by rw [hv, hn]⟩

/-- Witness for C9: one resolvable pair produces its link row. -/
theorem resolve_linkage_mem_iff_witness :
    (1, 2) ∈ ImportPipeline.resolve_volunteer_nonprofit_linkage
        (fun e => if e = "v@example.org" then some 1 else none)
        (fun o => if o = "Alpha" then some 2 else none)
        [("v@example.org", "Alpha")] :=
  (resolve_linkage_mem_iff _ _ _ 1 2).mpr
    ⟨"v@example.org", "Alpha", by decide, by decide, by decide⟩

/-- C10: a mentor whose `years_experience` free text is not one of the four
literal ranges is mapped to the `21+` bucket by the conversion to
`CreateMentor` (the conversion is total; nothing is rejected or dropped). -/
theorem mentor_years_experience_fallback
    (m : ImportPipeline.IntermediateMentorData)
    (h1 : m.years_experience ≠ "2-5") (h2 : m.years_experience ≠ "6-10")
    (h3 : m.years_experience ≠ "11-15") (h4 : m.years_experience ≠ "16-20") :
    (ImportPipeline.CreateMentor.fromIntermediate m).years_experience
      = ImportPipeline.MentorYearsExperience.R21Plus := by
  unfold ImportPipeline.CreateMentor.fromIntermediate
  dsimp only
  split <;> simp_all

/-- Witness for C10: a mentor with empty `years_experience` lands in the
`21+` bucket. -/
theorem mentor_years_experience_fallback_witness :
    (ImportPipeline.CreateMentor.fromIntermediate c10Mentor).years_experience
      = ImportPipeline.MentorYearsExperience.R21Plus :=
  mentor_years_experience_fallback c10Mentor (by decide) (by decide) (by decide)
    (by decide)

/-- C7: `generate_password` (free function and policy method) produces
exactly `n` characters when `8 ≤ n ≤ 64` and exactly 8 characters otherwise,
and every character of the result is alphanumeric. -/
theorem generate_password_length_and_charset :
    (∀ (len : Nat) (rng : Nat → Nat),
        (generate_password len rng).length = (if 8 ≤ len ∧ len ≤ 64 then len else 8)
          ∧ ∀ c ∈ (generate_password len rng).data, c.isAlphanum = true)
      ∧ ∀ (p : PasswordPolicy) (rng : Nat → Nat),
          (p.generate_password rng).length
              = (if 8 ≤ p.generated_password_length ∧ p.generated_password_length ≤ 64
                  then p.generated_password_length else 8)
            ∧ ∀ c ∈ (p.generate_password rng).data, c.isAlphanum = true := by
  constructor
  · intro len rng
    constructor
    · unfold generate_password
      by_cases h : len ≤ 7 ∨ 65 ≤ len
      · rw [if_pos h, if_neg (by omega), length_randomAlphanumericString]
      · rw [if_neg h, if_pos (by omega), length_randomAlphanumericString]
    · unfold generate_password
      split <;> exact mem_randomAlphanumericString _ _
  · intro p rng
    constructor
    · unfold PasswordPolicy.generate_password
      by_cases h : p.generated_password_length ≤ 7 ∨ 65 ≤ p.generated_password_length
      · rw [if_pos h, if_neg (by omega), length_randomAlphanumericString]
      · rw [if_neg h, if_pos (by omega), length_randomAlphanumericString]
    · unfold PasswordPolicy.generate_password
      split <;> exact mem_randomAlphanumericString _ _

/-- Witness for C7 at the boundary lengths 7, 65, 8 and 64. -/
theorem generate_password_boundary_witness :
    (generate_password 7 (fun _ => 0)).length = 8
    ∧ (generate_password 65 (fun _ => 0)).length = 8
    ∧ (generate_password 8 (fun _ => 0)).length = 8
    ∧ (generate_password 64 (fun _ => 0)).length = 64 := by
  refine ⟨?_, ?_, ?_, ?_⟩ <;>
    · rw [(generate_password_length_and_charset.1 _ (fun _ => 0)).1]; decide

/-- C2 (amended): an export request in strict mode naming an
already-exported volunteer is answered 400 before the export task is spawned
and before any directory call, but after the job row has been created. -/
theorem export_conflict_strict_mode
    (request : ExportUsersToWorkspaceRequest) (already_exported : List Uuid)
    (hskip : request.skip_users_on_conflict = false)
    (hconf : (request.volunteers.any fun v =>
        already_exported.contains v.volunteer_id) = true) :
    (ExportsController.export_users_to_workspace request already_exported).response = 400
    ∧ (ExportsController.export_users_to_workspace request already_exported).taskSpawned
        = false
    ∧ (ExportsController.export_users_to_workspace request already_exported).directoryCalls
        = 0
    ∧ (ExportsController.export_users_to_workspace request already_exported).jobCreated
        = true := by
  unfold ExportsController.export_users_to_workspace
  rw [hskip]
  simp only [Bool.false_eq_true, if_false]
  rw [if_pos hconf]
  exact ⟨rfl, rfl, rfl, rfl⟩

/-- Witness for C2's amended statement on `c2Request` with volunteer 2
already exported. -/
theorem export_conflict_strict_mode_witness :
    (ExportsController.export_users_to_workspace c2Request [2]).response = 400
    ∧ (ExportsController.export_users_to_workspace c2Request [2]).taskSpawned = false
    ∧ (ExportsController.export_users_to_workspace c2Request [2]).directoryCalls = 0
    ∧ (ExportsController.export_users_to_workspace c2Request [2]).jobCreated = true :=
  export_conflict_strict_mode c2Request [2] (by decide) (by decide)

/-- C2 counterexample: in the strict-conflict 400 path the job row has
already been created, contradicting "no job row is created". -/
theorem export_conflict_strict_counterexample :
    c2Run.response = 400 ∧ c2Run.jobCreated = true ∧ c2Run.taskSpawned = false := by
  refine ⟨?_, ?_, ?_⟩ <;> decide

/-- C4 (amended): the select-based export task races the loop against a
1200-second (20-minute) timeout, but when the timeout arm wins it performs
no status write and creates no job at all. -/
theorem select_export_timeout_effects :
    ExportUsers.export_timeout_secs = 20 * 60
    ∧ ∀ (params : ExportUsers.TaskParams) (emailSeed : Nat → Nat)
        (pwRng : Nat → Nat → Nat) (createOk sendOk : Nat → Bool) (insertOk : Bool)
        (deleteOk : Nat → Bool) (removeOk : Bool) (undo_job_id : Uuid)
        (progress : List (Uuid × String)),
        ExportUsers.export_task params emailSeed pwRng createOk sendOk insertOk
            deleteOk removeOk undo_job_id ExportUsers.SelectWinner.timeout progress
          = { statusWrites := [], jobsCreated := [] } :=
  ⟨rfl, fun _ _ _ _ _ _ _ _ _ _ => rfl⟩

/-- C4 counterexample: with one user already exported, a timeout win leaves
no status write (no `Error` transition) and spawns no undo job. -/
theorem select_export_timeout_counterexample :
    c4Run = { statusWrites := [], jobsCreated := [] } := rfl

/-- C5 (amended): ledger rows are batch-deleted exactly for the volunteers
whose directory deletion succeeded; the post-export undo task writes
`Complete` iff the ledger removal succeeded and no deletion failed, while
the post-cancellation undo task writes `Complete` iff the ledger removal
succeeded, regardless of failed deletions. -/
theorem undo_ledger_and_status (deleteOk : Nat → Bool) (removeOk : Bool)
    (users : List (Uuid × String)) :
    (ExportUsers.undo_partial_export deleteOk removeOk users).ledgerRemoveArg
        = ((users.enum.filter fun iu => deleteOk iu.1).map (·.2)).map (·.1)
    ∧ (ExportUsers.undo_partial_export deleteOk removeOk users).failed_deletions
        = (users.enum.filter fun iu => !deleteOk iu.1).map (·.2)
    ∧ ((ExportUsers.post_export_undo_task deleteOk removeOk users).2
          = some (JobStatus.Complete, none)
        ↔ removeOk = true
          ∧ (ExportUsers.undo_partial_export deleteOk removeOk users).failed_deletions
              = [])
    ∧ ((ExportUsers.post_cancellation_undo_partial_export_task deleteOk removeOk
          users).2.1 = JobStatus.Complete ↔ removeOk = true) := by
  refine ⟨rfl, rfl, ?_, ?_⟩
  · unfold ExportUsers.post_export_undo_task ExportUsers.undo_partial_export
    cases removeOk <;> dsimp only
    · simp
    · rw [if_pos rfl]
      dsimp only
      split <;> rename_i h
      · exact ⟨fun _ => ⟨rfl, List.isEmpty_iff.mp h⟩, fun _ => rfl⟩
      · have hne : ((users.enum.filter fun iu => !deleteOk iu.1).map (·.2)) ≠ [] := by
          intro hmap
          rw [hmap] at h
          exact h rfl
        simp [hne]
  · unfold ExportUsers.post_cancellation_undo_partial_export_task
      ExportUsers.undo_partial_export
    cases removeOk <;> simp

/-- Witness for C5's amended statement: with all deletions succeeding and
the removal succeeding, the post-cancellation undo job is `Complete`. -/
theorem undo_ledger_and_status_witness :
    (ExportUsers.post_cancellation_undo_partial_export_task (fun _ => true) true
        [(3, "x@developforgood.org")]).2.1 = JobStatus.Complete :=
  ((undo_ledger_and_status (fun _ => true) true
      [(3, "x@developforgood.org")]).2.2.2).mpr rfl

/-- C5 counterexample: the post-cancellation undo task marks the undo job
`Complete` even though the single directory deletion failed. -/
theorem undo_cancellation_complete_despite_failure :
    c5Run.1.failed_deletions = [(1, "adalovelace@developforgood.org")]
    ∧ c5Run.2 = (JobStatus.Complete, none) := by
  refine ⟨?_, ?_⟩ <;> decide

/-- C1 (amended): when the export loop of the wired export pipeline stops
before creating all requested users, the ledger and onboarding-mail lists
are truncated to `exported_count` and exactly those are persisted and
dispatched; no Undo sub-job is spawned, and the job is marked `Complete`
precisely when the ledger insert and the mail dispatch both succeed
(`Error` otherwise). -/
theorem export_partial_completion_no_undo (params : Workspace.ExportParams)
    (emailSeed : Nat → Nat) (pwRng : Nat → Nat → Nat) (createOk : Nat → Bool)
    (saveOk : Bool) (sendOk : Nat → Bool)
    (h : (Workspace.export_task params emailSeed pwRng createOk saveOk
          sendOk).exportedCount
        < (Workspace.export_task params emailSeed pwRng createOk saveOk
            sendOk).requested) :
    (Workspace.export_task params emailSeed pwRng createOk saveOk sendOk).ledgerArg
        = (Workspace.process_volunteers params emailSeed pwRng).pantheon_data.take
            (Workspace.export_task params emailSeed pwRng createOk saveOk
              sendOk).exportedCount
    ∧ ((Workspace.export_task params emailSeed pwRng createOk saveOk sendOk).saveOk
          = true →
        (Workspace.export_task params emailSeed pwRng createOk saveOk sendOk).mailArg
          = some ((Workspace.process_volunteers params emailSeed
                pwRng).onboarding_email_data.take
              (Workspace.export_task params emailSeed pwRng createOk saveOk
                sendOk).exportedCount))
    ∧ (Workspace.export_task params emailSeed pwRng createOk saveOk
          sendOk).undoJobsSpawned = []
    ∧ ((Workspace.export_task params emailSeed pwRng createOk saveOk
            sendOk).statusWrite.1 = JobStatus.Complete
        ↔ saveOk = true
          ∧ Workspace.send_onboarding_emails sendOk
              ((Workspace.process_volunteers params emailSeed
                  pwRng).onboarding_email_data.take
                (Workspace.export_task params emailSeed pwRng createOk saveOk
                  sendOk).exportedCount) = true) := by
  simp only [Workspace.export_task] at h ⊢
  have hEN := Nat.ne_of_lt h
  rw [if_pos hEN, if_pos hEN]
  refine ⟨rfl, ?_, trivial, ?_⟩
  · intro hs
    rw [if_pos hs]
  · cases saveOk
    · simp
    · rw [if_pos rfl]
      by_cases hsend : Workspace.send_onboarding_emails sendOk
          ((Workspace.process_volunteers params emailSeed
              pwRng).onboarding_email_data.take
            (Workspace.export_volunteers_to_workspace createOk 0
              (Workspace.process_volunteers params emailSeed pwRng).export_data))
          = true
      · rw [if_pos hsend]
        simp [hsend]
      · rw [if_neg hsend]
        simp [hsend]

/-- Witness for C1's amended statement on the one-volunteer run `c1Params`
with a failing directory creation. -/
theorem export_partial_completion_no_undo_witness :
    (Workspace.export_task c1Params (fun _ => 0) (fun _ _ => 0) (fun _ => false)
        true (fun _ => true)).undoJobsSpawned = []
    ∧ (Workspace.export_task c1Params (fun _ => 0) (fun _ _ => 0) (fun _ => false)
          true (fun _ => true)).ledgerArg
        = (Workspace.process_volunteers c1Params (fun _ => 0)
              (fun _ _ => 0)).pantheon_data.take
            (Workspace.export_task c1Params (fun _ => 0) (fun _ _ => 0)
              (fun _ => false) true (fun _ => true)).exportedCount := by
  have h := export_partial_completion_no_undo c1Params (fun _ => 0) (fun _ _ => 0)
    (fun _ => false) true (fun _ => true) (by decide)
  exact ⟨h.2.2.1, h.1⟩

/-- C1 counterexample: a one-volunteer export whose directory creation
fails (`exported_count = 0 < 1`) is marked `Complete` after persisting and
dispatching the truncated (empty) lists, and no Undo sub-job is spawned —
the job is not transitioned to `Error`. -/
theorem export_partial_completion_counterexample :
    c1Run.exportedCount = 0 ∧ c1Run.requested = 1
    ∧ c1Run.statusWrite = (JobStatus.Complete, none)
    ∧ c1Run.undoJobsSpawned = [] := by
  refine ⟨?_, ?_, ?_, ?_⟩ <;> decide

lemma rustIsAlphanumeric_ascii (c : Char) (h : c.toNat < 0x80) :
    rustIsAlphanumeric c = c.isAlphanum := by
  unfold rustIsAlphanumeric
  rw [if_pos h]

lemma mem_rustToLower_ascii (s : String) (hs : ∀ c ∈ s.data, c.toNat < 0x80) :
    ∀ c ∈ (rustToLower s).data, c.toNat < 0x80 ∧ c.isUpper = false := by
  intro c hc
  simp only [rustToLower, List.mem_map] at hc
  obtain ⟨d, hd, rfl⟩ := hc
  exact rustToLowerChar_ascii d (hs d hd)

lemma toString_two_digit_isDigit (m : Nat) (hm : m < 90) :
    ∀ c ∈ (toString (10 + m)).data, c.isDigit = true := by
  interval_cases m <;> decide

lemma ascii_alnum_not_upper (c : Char) (halnum : c.isAlphanum = true)
    (hupper : c.isUpper = false) : (c.isLower || c.isDigit) = true := by
  have h1 := (char_isAlphanum_iff c).mp halnum
  have h2 : ¬(65 ≤ c.toNat ∧ c.toNat ≤ 90) := by
    intro hx
    rw [Bool.eq_false_iff] at hupper
    exact hupper ((char_isUpper_iff c).mpr hx)
  rw [Bool.or_eq_true, char_isLower_iff, char_isDigit_iff]
  omega

/-- C8 (amended): `build_volunteer_email` is the handle followed by the
fixed domain; every handle character is alphanumeric in the sense of Rust
`char::is_alphanumeric` (Unicode, not `[A-Za-z0-9]`, and the handle may be
empty); when the names are ASCII and the separator is ASCII without
uppercase letters, the handle consists only of `[a-z0-9]` characters; and
without the numeric suffix the output is deterministic. -/
theorem build_volunteer_email_shape (p : EmailPolicy)
    (first_name last_name : String) (seed : Nat) :
    p.build_volunteer_email first_name last_name seed
        = p.email_handle first_name last_name seed ++ "@volunteer.developforgood.org"
    ∧ (∀ c ∈ (p.email_handle first_name last_name seed).data,
        rustIsAlphanumeric c = true)
    ∧ ((∀ c ∈ first_name.data, c.toNat < 0x80) →
        (∀ c ∈ last_name.data, c.toNat < 0x80) →
        (∀ c ∈ (p.separator.getD "").data, c.toNat < 0x80 ∧ c.isUpper = false) →
        ∀ c ∈ (p.email_handle first_name last_name seed).data,
          (c.isLower || c.isDigit) = true)
    ∧ (p.add_unique_numeric_suffix = false →
        ∀ seed2 : Nat, p.email_handle first_name last_name seed
          = p.email_handle first_name last_name seed2) := by
  refine ⟨rfl, ?_, ?_, ?_⟩
  · intro c hc
    simp only [EmailPolicy.email_handle] at hc
    exact (List.mem_filter.mp hc).2
  · intro hf hl hsep c hc
    simp only [EmailPolicy.email_handle] at hc
    obtain ⟨hmem, halnum⟩ := List.mem_filter.mp hc
    have hbase : c.toNat < 0x80 ∧ c.isUpper = false := by
      have hb0 : ∀ d ∈ ((if p.use_first_and_last_name then
          rustToLower first_name ++ (p.separator.getD "") ++ rustToLower last_name
          else rustToLower first_name)).data,
          d.toNat < 0x80 ∧ d.isUpper = false := by
        intro d hd
        split at hd
        · rw [String.data_append, String.data_append] at hd
          rcases List.mem_append.mp hd with hd1 | hd2
          · rcases List.mem_append.mp hd1 with hd3 | hd4
            · exact mem_rustToLower_ascii first_name hf d hd3
            · exact hsep d hd4
          · exact mem_rustToLower_ascii last_name hl d hd2
        · exact mem_rustToLower_ascii first_name hf d hd
      split at hmem
      · rw [String.data_append] at hmem
        rcases List.mem_append.mp hmem with hm1 | hm2
        · exact hb0 c hm1
        · have hdig := toString_two_digit_isDigit (seed % 90)
            (Nat.mod_lt _ (by omega)) c hm2
          have := (char_isDigit_iff c).mp hdig
          constructor
          · omega
          · rw [Bool.eq_false_iff]
            intro hu
            have := (char_isUpper_iff c).mp hu
            omega
      · exact hb0 c hmem
    rw [rustIsAlphanumeric_ascii c hbase.1] at halnum
    exact ascii_alnum_not_upper c halnum hbase.2
  · intro hsuf seed2
    simp [EmailPolicy.email_handle, hsuf]

/-- Witness for C8's amended statement: with ASCII names and separator
`"."`, every character of the built handle is in `[a-z0-9]`. -/
theorem build_volunteer_email_shape_witness :
    (((⟨false, some ".", true⟩ : EmailPolicy).email_handle "Ada" "Lovelace"
        0).data.all fun c => c.isLower || c.isDigit) = true :=
  List.all_eq_true.mpr fun c hc =>
    (build_volunteer_email_shape ⟨false, some ".", true⟩ "Ada" "Lovelace" 0).2.2.1
      (by decide) (by decide) (by decide) c hc

set_option maxRecDepth 4096 in
/-- C8 counterexample: the Unicode-alphanumeric `é` survives the filter, and
an uppercase alphanumeric separator is kept unlowered, so the output does
not match `[a-z0-9]+@<domain>` as claimed. -/
theorem build_volunteer_email_pattern_counterexample :
    (⟨false, none, false⟩ : EmailPolicy).build_volunteer_email "é" "x" 0
        = "é@volunteer.developforgood.org"
    ∧ specEmailPattern "é@volunteer.developforgood.org" = false
    ∧ (⟨false, some "K", true⟩ : EmailPolicy).build_volunteer_email "a" "b" 0
        = "aKb@volunteer.developforgood.org"
    ∧ specEmailPattern "aKb@volunteer.developforgood.org" = false := by
  refine ⟨?_, ?_, ?_, ?_⟩ <;> decide

end Scipio
